import Mathlib

/-!
Shallow embedding of the fastmcp2 demo repository:
  * src/proxy.py            — the sandbox bridge/proxy
  * src/src/http_mcp_server.py — the FastMCP server tools
  * src/src/http_mcp_client.py — the CLI client and its elicitation handler
Pure protocol logic is transcribed from the Python source; behaviour that
lives in the external fastmcp library (task dispatch, task lifecycle) is
modelled from the spec and marked as such in doc comments.
-/

/-- JSON-like values, the payloads exchanged with the sandbox and the MCP
server (Python dicts/lists/strings as produced by `resp.json()`). -/
inductive JValue where
  | null
  | bool (b : Bool)
  | num (n : Int)
  | str (s : String)
  | arr (elems : List JValue)
  | obj (fields : List (String × JValue))

/-- Lookup of a key in an object's field list (Python dict `.get`;
dict keys are unique, so the first hit is the value). -/
def jLookup : List (String × JValue) → String → Option JValue
  | [], _ => none
  | (k, v) :: rest, key => if k = key then some v else jLookup rest key

/-- `d.get(key)` on a JSON value: `none` when the value is not an object or
the key is absent. -/
def jGet : JValue → String → Option JValue
  | .obj fields, key => jLookup fields key
  | _, _ => none

/-- `isinstance(v, dict) and key in v`. -/
def jHasKey (v : JValue) (key : String) : Bool :=
  match v with
  | .obj fields => (jLookup fields key).isSome
  | _ => false

/-- `v == "error"` for a possibly missing value retrieved with `.get`
(Python equality of an arbitrary value with the string literal). -/
def jValueIsStrError : JValue → Bool
  | .str s => s = "error"
  | _ => false

/-- The fault raised by calling `.get` on a non-dict value (Python's
AttributeError; the exact interpreter message is abstracted to a
constant). -/
def attrGetErrorMsg : String :=
  "AttributeError: object has no attribute get"

/-- The fault raised by `for log in logs` when the logs value is not
iterable (Python's TypeError; message abstracted to a constant). -/
def logsIterErrorMsg : String :=
  "TypeError: logs object is not iterable"

/-- Python `v.get(key, default)`: the lookup on a dict, or a raised
AttributeError when `v` is not a dict. -/
def pyGet (v : JValue) (key : String) (default : JValue) :
    Except String JValue :=
  match v with
  | .obj fields => .ok ((jLookup fields key).getD default)
  | _ => .error attrGetErrorMsg

/-- Python `for _ in v`: dicts, lists and strings are iterable; None,
booleans and numbers raise TypeError. -/
def pyIterable : JValue → Bool
  | .obj _ => true
  | .arr _ => true
  | .str _ => true
  | _ => false

/-- `run_sandbox` from src/proxy.py: POSTs the code to the sandbox executor;
`post` is the outcome of that HTTP exchange (`.error e` being a raised
exception rendered as `str(e)`).  On failure the except-branch returns the
structured dict `{"status": "error", "error": str(e), "logs": ["Connection
Error: ..."]}` instead of propagating. -/
def run_sandbox (post : Except String JValue) : JValue :=
  match post with
  | .ok resp => resp
  | .error e =>
      .obj [("status", .str "error"), ("error", .str e),
            ("logs", .arr [.str ("Connection Error: " ++ e)])]

/-- Observable outcome of one run of the proxy's `main` after the sandbox
call: the follow-up MCP tool calls it performed (tool name and arguments as
passed to `mcp_client.call_tool`), the early-exit error payload when the
sandbox reported `status == "error"`, the printed follow-up result, and the
message printed by the `except` branch around the MCP call. -/
structure ProxyOutcome where
  followUpCalls : List (JValue × JValue)
  sandboxFailed : Option JValue
  mcpResult : Option JValue
  mcpError : Option String

/-- `main` from src/proxy.py, from the sandbox call onward.  `post` is the
sandbox HTTP exchange, `callTool` the MCP `call_tool` exchange (either may
fail like a raised exception).  The codomain is `Except`: an uncaught
exception shows up as `.error`.  Only the sandbox POST (inside
`run_sandbox`) and the MCP call sit inside `try/except` blocks in the
source; the `.get` calls on the sandbox response, the logs loop, and the
`.get` calls on the `mcp_call` value run outside any `try`, so on a
malformed payload they raise AttributeError/TypeError out of `main` — each
such point is a `pyGet`/`pyIterable` step here.  (The transport object
construction on line 91 is pure configuration and assumed not to raise.) -/
def proxyMain (post : Except String JValue)
    (callTool : JValue → JValue → Except String JValue) :
    Except String ProxyOutcome :=
  let sandboxResponse := run_sandbox post
  match pyGet sandboxResponse "logs" (.arr []) with
  | .error e => .error e
  | .ok logs =>
      if pyIterable logs then
        match pyGet sandboxResponse "status" .null with
        | .error e => .error e
        | .ok status =>
            if jValueIsStrError status then
              match pyGet sandboxResponse "error" .null with
              | .error e => .error e
              | .ok errv =>
                  .ok { followUpCalls := [], sandboxFailed := some errv,
                        mcpResult := none, mcpError := none }
            else
              match pyGet sandboxResponse "result" .null with
              | .error e => .error e
              | .ok result =>
                  if jHasKey result "mcp_call" then
                    let callInfo := (jGet result "mcp_call").getD .null
                    match pyGet callInfo "tool" .null with
                    | .error e => .error e
                    | .ok toolName =>
                        match pyGet callInfo "arguments" (.obj []) with
                        | .error e => .error e
                        | .ok toolArgs =>
                            match callTool toolName toolArgs with
                            | .ok r =>
                                .ok { followUpCalls := [(toolName, toolArgs)],
                                      sandboxFailed := none,
                                      mcpResult := some r, mcpError := none }
                            | .error e =>
                                .ok { followUpCalls := [(toolName, toolArgs)],
                                      sandboxFailed := none, mcpResult := none,
                                      mcpError :=
                                        some ("Error calling MCP tool: " ++ e) }
                  else
                    .ok { followUpCalls := [], sandboxFailed := none,
                          mcpResult := none, mcpError := none }
      else
        .error logsIterErrorMsg

/-- The follow-up tool calls one proxy run performs (empty when the run
would have died on an uncaught exception, which never happens). -/
def proxyCallsOf (post : Except String JValue)
    (callTool : JValue → JValue → Except String JValue) :
    List (JValue × JValue) :=
  match proxyMain post callTool with
  | .ok o => o.followUpCalls
  | .error _ => []

/-- The sandbox response of the C2 scenario: a successful run whose result
carries the directive `{mcp_call: {tool: "hello_name", arguments:
{name: "X"}}}`. -/
def c2SandboxResponse : JValue :=
  .obj [("status", .str "ok"), ("logs", .arr []),
        ("result", .obj [("mcp_call",
          .obj [("tool", .str "hello_name"),
                ("arguments", .obj [("name", .str "X")])])])]

/-- The elicitation response object the client handler builds
(`ElicitResult(action=..., data=...)`; `data` defaults to absent). -/
structure ElicitResult where
  action : String
  data : Option String := none
deriving DecidableEq

/-- Outcome of one Python constructor attempt `response_type(...)`: either a
constructed value or a raised TypeError (the failure mode of constructing a
dataclass with a wrong argument shape, and the only exception the handler
catches). -/
inductive ConstructOutcome (α : Type) where
  | ok (v : α)
  | typeError (msg : String)
deriving DecidableEq

/-- What escapes the elicitation handler: an `ElicitResult`, a constructed
typed value, or an uncaught exception (the shape-mismatch surfaced to the
caller). -/
inductive HandlerOutcome (α : Type) where
  | response (r : ElicitResult)
  | value (v : α)
  | raised (msg : String)
deriving DecidableEq

/-- Python whitespace as stripped by `str.strip()`. -/
def isPySpace (c : Char) : Bool :=
  c == ' ' || c == '\t' || c == '\n' || c == '\r' || c == '\x0b' || c == '\x0c'

/-- Python `str.strip()`: drop leading and trailing whitespace. -/
def pyStrip (s : String) : String :=
  String.mk (((s.data.dropWhile isPySpace).reverse.dropWhile isPySpace).reverse)

/-- Python `str.lower()` on one ASCII character. -/
def pyLowerChar (c : Char) : Char :=
  if 'A' ≤ c && c ≤ 'Z' then Char.ofNat (c.toNat + 32) else c

/-- Python `str.lower()`. -/
def pyLower (s : String) : String :=
  String.mk (s.data.map pyLowerChar)

/-- `basic_elicitation_handler` from src/src/http_mcp_client.py.
`rawInput` is the string returned by `input()`; `typed` is `none` when
`response_type is None` (closed option set), otherwise the pair of
constructor attempts: named-field `response_type(value=u)` and positional
`response_type(u)`. -/
def basic_elicitation_handler (α : Type) (rawInput : String)
    (typed : Option ((String → ConstructOutcome α) × (String → ConstructOutcome α))) :
    HandlerOutcome α :=
  let user_response := pyStrip rawInput
  match typed with
  | none =>
      let lowered := pyLower user_response
      if ["decline", "reject", "no"].contains lowered then
        .response { action := "decline" }
      else if ["cancel", "exit"].contains lowered then
        .response { action := "cancel" }
      else
        .response { action := "accept" }
  | some (named, positional) =>
      if user_response = "" then
        .response { action := "decline" }
      else
        match named user_response with
        | .ok v => .value v
        | .typeError _ =>
            match positional user_response with
            | .ok v => .value v
            | .typeError m => .raised m

/-- The elicitation request issued by `choose_action` in
src/src/http_mcp_server.py: `ctx.elicit("Choose an action",
["accept", "decline", "cancel"])`. -/
def choose_action_request : String × List String :=
  ("Choose an action", ["accept", "decline", "cancel"])

/-- The `choose_action` tool body from src/src/http_mcp_server.py, as a
function of the elicitation response it received.  `selection or 'no
selection provided'` treats both a missing and an empty selection as
falsy. -/
def choose_action (result : ElicitResult) : String :=
  if result.action = "accept" then
    "Accepted: " ++
      (match result.data with
       | some s => if s = "" then "no selection provided" else s
       | none => "no selection provided")
  else if result.action = "decline" then "Declined!"
  else "Cancelled!"

/-- The `try/except ToolError` dispatch section of `main` in
src/src/http_mcp_client.py: `runTool` runs the selected tool (printing its
output lines) or raises `ToolError` carrying the server's detail; the
except-branch prints the rejection message and returns normally. -/
def clientDispatch (tool : String)
    (runTool : String → Except String (List String)) :
    Except String (List String) :=
  match runTool tool with
  | .ok lines => .ok lines
  | .error exc => .ok ["Server rejected tool \x27" ++ tool ++ "\x27: " ++ exc]

/-- The process exit code produced by `asyncio.run(main(...))`: 0 when
`main` returns, 1 when an exception propagates out of it. -/
def processExitCode (outcome : Except String (List String)) : Nat :=
  match outcome with
  | .ok _ => 0
  | .error _ => 1

/-- Task modes of the spec's ToolDescriptor. -/
inductive TaskMode where
  | modeNone
  | modeOptional
  | modeRequired
deriving DecidableEq

/-- The tool registry built in src/src/http_mcp_server.py: `slow_task` is
registered with `TaskConfig(mode="required")`; the other tools use the
plain decorator (the spec's optional mode under a tasks-enabled server). -/
def registry : List (String × TaskMode) :=
  [("slow_task", .modeRequired), ("choose_action", .modeOptional),
   ("receive_file", .modeOptional), ("run_python", .modeOptional)]

/-- Outcome of dispatching one invocation. -/
inductive DispatchOutcome where
  | immediate (result : String)
  | handle (returnedImmediately : Bool)
  | rejected (detail : String)
  | unknownTool
deriving DecidableEq

/-- Modelled from the spec: the dispatch enforcement lives in the fastmcp
library, not under src/.  Spec section 3: an invocation against a tool with
taskMode=required must always yield a TaskHandle, never an immediate
result; section 4.4: calling a required-task tool without asTask=true fails
with ToolRejected, it is not silently demoted; section 4.1: for required
mode the handle is returned without waiting for the handler
(returnedImmediately=false).  `run` supplies synchronous results and
`serverImmediate` the server's optional-mode heuristic, both irrelevant to
the required path. -/
def dispatch (run : String → String) (serverImmediate : Bool)
    (toolName : String) (asTask : Bool) : DispatchOutcome :=
  match registry.lookup toolName with
  | none => .unknownTool
  | some .modeRequired =>
      if asTask then .handle false
      else .rejected ("Tool \x27" ++ toolName ++ "\x27 requires task execution")
  | some .modeOptional =>
      if asTask then .handle serverImmediate else .immediate (run toolName)
  | some .modeNone => .immediate (run toolName)

/-- Progress-reporting operations available to a task handler
(`progress.set_total`, `progress.set_message`, `progress.increment`). -/
inductive ProgressOp where
  | setTotal (n : Nat)
  | setMessage (msg : String)
  | increment
deriving DecidableEq

/-- The progress snapshot a poller reads. -/
structure ProgressState where
  total : Option Nat := none
  completed : Nat := 0
  message : Option String := none
deriving DecidableEq

/-- Effect of one progress operation on the snapshot. -/
def applyProgress (st : ProgressState) : ProgressOp → ProgressState
  | .setTotal n => { st with total := some n }
  | .setMessage m => { st with message := some m }
  | .increment => { st with completed := st.completed + 1 }

/-- The sequence of progress operations the `slow_task` handler in
src/src/http_mcp_server.py performs: `set_total(duration)`, then for each
`i in range(duration)` a `set_message` followed by an `increment`. -/
def slow_task_ops (duration : Nat) : List ProgressOp :=
  .setTotal duration ::
    (List.range duration).flatMap (fun i =>
      [.setMessage ("Working... step " ++ toString (i + 1) ++ "/" ++
        toString duration),
       .increment])

/-- The string `slow_task` returns. -/
def slow_task_result (duration : Nat) : String :=
  "Finished a " ++ toString duration ++ "-second task over HTTP"

/-- The handler outcome of `slow_task`: it performs its loop and returns
normally (it raises nothing). -/
def slow_task_outcome (duration : Nat) : Except String String :=
  .ok (slow_task_result duration)

/-- All progress snapshots a poller can observe over the lifetime of a task
performing `ops`: the initial snapshot followed by the snapshot after each
operation. -/
def progressTrace (ops : List ProgressOp) : List ProgressState :=
  ops.scanl applyProgress {}

/-- Task lifecycle states. -/
inductive TaskState where
  | submitted
  | running
  | completed
  | failed
  | cancelled
deriving DecidableEq

/-- Modelled from the spec: the task lifecycle (spec section 4.2) lives in
the fastmcp library, not under src/.  A handler that returns a value drives
its task to `completed`; a handler that raises drives it to `failed`. -/
def finalTaskState (handlerOutcome : Except String String) : TaskState :=
  match handlerOutcome with
  | .ok _ => .completed
  | .error _ => .failed

/-- Splits a character list at every `'/'` (the component splitter
underlying PurePosixPath parsing); always returns at least one, possibly
empty, component. -/
def splitSlash : List Char → List (List Char)
  | [] => [[]]
  | c :: cs =>
      if c = '/' then [] :: splitSlash cs
      else
        match splitSlash cs with
        | [] => [[c]]
        | comp :: comps => (c :: comp) :: comps

/-- PurePosixPath component parsing (pathlib): split on `'/'`, drop empty
components and single dots; `".."` components are kept. -/
def pathlibParts (s : String) : List String :=
  ((splitSlash s.data).map (fun cs => String.mk cs)).filter
    (fun comp => comp != "" && comp != ".")

/-- `PurePosixPath(s).name` — the final path component, `""` when there is
none. -/
def pathlibName (s : String) : String :=
  ((pathlibParts s).getLast?).getD ""

/-- `name_hint` in `receive_file` (src/src/http_mcp_server.py):
`Path(urlparse(str(source_uri)).path).name or "uploaded.bin"`, taking the
already extracted URL path as input. -/
def name_hint (uriPath : String) : String :=
  if pathlibName uriPath = "" then "uploaded.bin" else pathlibName uriPath

/-- Characters allowed in a URL scheme after the leading letter. -/
def isSchemeChar (c : Char) : Bool :=
  c.isAlphanum || c = '+' || c = '-' || c = '.'

/-- Strips a leading `scheme:` from a URL's characters when a well-formed
scheme is present (urllib.parse.urlsplit's scheme detection). -/
def stripScheme (cs : List Char) : List Char :=
  let pre := cs.takeWhile (fun c => c != ':')
  if pre.length < cs.length && !pre.isEmpty &&
      (pre.headD 'a').isAlpha && pre.all isSchemeChar then
    cs.drop (pre.length + 1)
  else cs

/-- Strips a leading `//netloc` (urllib.parse.urlsplit: the netloc runs to
the next `'/'` or `'?'`). -/
def stripNetloc (cs : List Char) : List Char :=
  match cs with
  | '/' :: '/' :: rest => rest.dropWhile (fun c => c != '/' && c != '?')
  | _ => cs

/-- Models `urllib.parse.urlparse(url).path`: drop the fragment, the scheme
and the netloc, then keep everything before the query. -/
def urlparsePath (url : String) : String :=
  let noFrag := url.data.takeWhile (fun c => c != '#')
  String.mk ((stripNetloc (stripScheme noFrag)).takeWhile (fun c => c != '?'))

/-- The default upload directory of `receive_file`. -/
def UPLOAD_DIR : String := "/tmp/mcp_uploads"

/-- Resolution of `".."` components against the filesystem root, applied to
an absolute path's component list (what the OS does when the write opens
`upload_dir / name_hint`). -/
def normalizeParts (parts : List String) : List String :=
  parts.foldl (fun acc comp =>
    if comp = ".." then acc.dropLast else acc ++ [comp]) []

/-- The component list of `destination = upload_dir / name_hint` in
`receive_file`: pathlib's `/` appends the parsed components of the
right-hand side to the left-hand path. -/
def destinationParts (uriPath : String) : List String :=
  pathlibParts UPLOAD_DIR ++ pathlibParts (name_hint uriPath)

/-- C1: for every tool registered with taskMode=required (here slow_task),
calling it without asTask=true always yields a ToolRejected error and never
a direct result; the server does not silently demote the call to
synchronous execution.  (Dispatch enforcement modelled from the spec; the
registry entry for slow_task comes from src/src/http_mcp_server.py.) -/
theorem c1_required_task_never_demoted :
    (∀ run serverImmediate,
      dispatch run serverImmediate "slow_task" false =
        .rejected ("Tool \x27slow_task\x27 requires task execution"))
    ∧ (∀ run serverImmediate r,
      dispatch run serverImmediate "slow_task" false ≠ .immediate r) := by
  constructor
  · intro run serverImmediate
    rfl
  · intro run serverImmediate r h
    simp [dispatch, registry] at h

/-- A failed `pyGet` always raises the AttributeError. -/
theorem pyGet_error {v : JValue} {k : String} {d : JValue} {f : String}
    (h : pyGet v k d = .error f) : f = attrGetErrorMsg := by
  cases v <;> simp [pyGet] at h <;> exact h.symm

/-- Shape of one proxy run: it either raises one of the two uncaught
Python faults (AttributeError from a `.get` on a non-dict, TypeError from
a non-iterable logs value) or returns an outcome with at most one
follow-up call. -/
theorem proxyMain_shape (post : Except String JValue)
    (callTool : JValue → JValue → Except String JValue) :
    (∃ f, proxyMain post callTool = .error f ∧
        (f = attrGetErrorMsg ∨ f = logsIterErrorMsg))
    ∨ (∃ o, proxyMain post callTool = .ok o ∧
        o.followUpCalls.length ≤ 1) := by
  unfold proxyMain
  dsimp only
  split
  next e heq => exact Or.inl ⟨e, rfl, Or.inl (pyGet_error heq)⟩
  next logs heq =>
    split
    · split
      next e2 heq2 => exact Or.inl ⟨e2, rfl, Or.inl (pyGet_error heq2)⟩
      next status heq2 =>
        split
        · split
          next e3 heq3 => exact Or.inl ⟨e3, rfl, Or.inl (pyGet_error heq3)⟩
          next errv heq3 => exact Or.inr ⟨_, rfl, by simp⟩
        · split
          next e4 heq4 => exact Or.inl ⟨e4, rfl, Or.inl (pyGet_error heq4)⟩
          next result heq4 =>
            split
            · split
              next e5 heq5 => exact Or.inl ⟨e5, rfl, Or.inl (pyGet_error heq5)⟩
              next toolName heq5 =>
                split
                next e6 heq6 =>
                  exact Or.inl ⟨e6, rfl, Or.inl (pyGet_error heq6)⟩
                next toolArgs heq6 =>
                  split
                  next r heq7 => exact Or.inr ⟨_, rfl, by simp⟩
                  next e7 heq7 => exact Or.inr ⟨_, rfl, by simp⟩
            · exact Or.inr ⟨_, rfl, by simp⟩
    · exact Or.inl ⟨_, rfl, Or.inr rfl⟩

/-- C2: a sandbox result carrying an `mcp_call` directive triggers exactly
one follow-up tool call with the named tool and arguments, for every
behaviour of the MCP client — in particular for clients whose follow-up
result itself contains another directive, which is never chained; and no
proxy run ever performs more than one follow-up call. -/
theorem c2_bridge_exactly_one_followup :
    (∀ callTool,
      Except.map ProxyOutcome.followUpCalls
          (proxyMain (.ok c2SandboxResponse) callTool) =
        .ok [(JValue.str "hello_name", JValue.obj [("name", JValue.str "X")])])
    ∧ (∀ post callTool, (proxyCallsOf post callTool).length ≤ 1) := by
  constructor
  · intro callTool
    rcases h : callTool (JValue.str "hello_name")
        (JValue.obj [("name", JValue.str "X")]) with r | e <;>
      simp [proxyMain, run_sandbox, pyGet, pyIterable, jValueIsStrError,
        jGet, jLookup, jHasKey, c2SandboxResponse, h, Except.map]
  · intro post callTool
    unfold proxyCallsOf
    rcases proxyMain_shape post callTool with ⟨f, hf, -⟩ | ⟨o, ho, hlen⟩
    · rw [hf]
      exact Nat.zero_le 1
    · rw [ho]
      exact hlen

/-- C6: a transport failure during the sandbox call is converted by
run_sandbox into the structured mapping with status="error", the error
string and a "Connection Error" log line, and the bridge run then
completes normally for every follow-up behaviour; a transport failure
during the follow-up tool call is captured by the surrounding try/except
as the printed "Error calling MCP tool" outcome; and any fault that does
escape main is one of the uncaught Python faults raised outside the try
blocks on a malformed sandbox payload (AttributeError from a `.get` on a
non-dict, TypeError from a non-iterable logs value) — never a transport
failure, so transport failures are always captured. -/
theorem c6_transport_failures_structured :
    (∀ e, run_sandbox (.error e) =
      .obj [("status", .str "error"), ("error", .str e),
            ("logs", .arr [.str ("Connection Error: " ++ e)])])
    ∧ (∀ e callTool, (proxyMain (.error e) callTool).isOk = true)
    ∧ (∀ e, proxyMain (.ok c2SandboxResponse) (fun _ _ => .error e) =
        .ok { followUpCalls :=
                [(JValue.str "hello_name", JValue.obj [("name", JValue.str "X")])],
              sandboxFailed := none, mcpResult := none,
              mcpError := some ("Error calling MCP tool: " ++ e) })
    ∧ (∀ post callTool f, proxyMain post callTool = .error f →
        f = attrGetErrorMsg ∨ f = logsIterErrorMsg) := by
  refine ⟨fun e => rfl, fun e callTool => rfl, ?_, ?_⟩
  · intro e
    simp [proxyMain, run_sandbox, pyGet, pyIterable, jValueIsStrError,
      jGet, jLookup, jHasKey, c2SandboxResponse]
  · intro post callTool f h
    rcases proxyMain_shape post callTool with ⟨f2, hf2, hc⟩ | ⟨o, ho, -⟩
    · rw [h] at hf2
      injection hf2 with hh
      rw [hh]
      exact hc
    · rw [h] at ho
      simp at ho

/-- Witness for C6: a sandbox payload that is a bare JSON string (not a
dict) makes the first `.get` raise the AttributeError, which the
classification conjunct recognises. -/
theorem c6_transport_failures_witness :
    proxyMain (.ok (JValue.str "oops")) (fun _ _ => .ok .null) =
      .error attrGetErrorMsg
    ∧ (attrGetErrorMsg = attrGetErrorMsg ∨
        attrGetErrorMsg = logsIterErrorMsg) :=
  ⟨rfl, c6_transport_failures_structured.2.2.2 (.ok (JValue.str "oops"))
      (fun _ _ => .ok .null) attrGetErrorMsg rfl⟩

/-- C8: when the server rejects a tool call (ToolError), the CLI client
prints a message naming the tool and the server's detail and returns
normally, with the same process exit code as a successful run. -/
theorem c8_rejection_printed_exits_like_success
    (tool exc : String) (runTool : String → Except String (List String))
    (h : runTool tool = .error exc) :
    clientDispatch tool runTool =
      .ok ["Server rejected tool \x27" ++ tool ++ "\x27: " ++ exc]
    ∧ processExitCode (clientDispatch tool runTool) =
      processExitCode (clientDispatch tool (fun _ => .ok [])) := by
  constructor
  · unfold clientDispatch
    rw [h]
  · unfold clientDispatch
    rw [h]
    rfl

/-- Witness for C8 at tool "slow_task" with server detail "boom". -/
theorem c8_rejection_witness :
    clientDispatch "slow_task" (fun _ => .error "boom") =
      .ok ["Server rejected tool \x27" ++ "slow_task" ++ "\x27: " ++ "boom"]
    ∧ processExitCode (clientDispatch "slow_task" (fun _ => .error "boom")) =
      processExitCode (clientDispatch "slow_task" (fun _ => .ok [])) :=
  c8_rejection_printed_exits_like_success "slow_task" "boom"
    (fun _ => .error "boom") rfl

/-- C3: for a typed expected shape and a non-empty response, the handler
first attempts the named-field construction `response_type(value=u)`; when
that raises TypeError it attempts the positional construction
`response_type(u)`; when both fail the second failure is raised out of the
handler (the ShapeMismatch surfaced) with no further guessing. -/
theorem c3_typed_shape_fallback {α : Type} (raw : String)
    (named positional : String → ConstructOutcome α)
    (hne : pyStrip raw ≠ "") :
    (∀ v, named (pyStrip raw) = .ok v →
      basic_elicitation_handler α raw (some (named, positional)) = .value v)
    ∧ (∀ m v, named (pyStrip raw) = .typeError m →
        positional (pyStrip raw) = .ok v →
        basic_elicitation_handler α raw (some (named, positional)) = .value v)
    ∧ (∀ m m2, named (pyStrip raw) = .typeError m →
        positional (pyStrip raw) = .typeError m2 →
        basic_elicitation_handler α raw (some (named, positional)) = .raised m2) := by
  unfold basic_elicitation_handler
  dsimp only
  rw [if_neg hne]
  refine ⟨?_, ?_, ?_⟩
  · intro v hnamed
    rw [hnamed]
  · intro m v hnamed hpos
    rw [hnamed, hpos]
  · intro m m2 hnamed hpos
    rw [hnamed, hpos]

/-- Witness for C3: named construction raises TypeError, positional
succeeds, so the handler returns the positional value. -/
theorem c3_typed_shape_fallback_witness :
    pyStrip "x" ≠ "" ∧
    basic_elicitation_handler String "x"
      (some (fun _ => ConstructOutcome.typeError "named failed",
             fun s => ConstructOutcome.ok s)) = .value "x" :=
  ⟨by decide,
   (c3_typed_shape_fallback "x"
      (fun _ => ConstructOutcome.typeError "named failed")
      (fun s => ConstructOutcome.ok s) (by decide)).2.1
     "named failed" "x" rfl rfl⟩

/-- C5: for the closed option set (response_type None), a decline word
yields action=decline with no data, and the server's choose_action renders
that as "Declined!"; the elicitation request carries the message "Choose an
action" and the options [accept, decline, cancel]. -/
theorem c5_decline_yields_declined (raw : String)
    (h : ["decline", "reject", "no"].contains (pyLower (pyStrip raw)) = true) :
    basic_elicitation_handler Unit raw none =
      .response { action := "decline", data := none }
    ∧ choose_action { action := "decline", data := none } = "Declined!"
    ∧ choose_action_request =
        ("Choose an action", ["accept", "decline", "cancel"]) := by
  refine ⟨?_, by decide, rfl⟩
  unfold basic_elicitation_handler
  dsimp only
  rw [if_pos h]

/-- Witness for C5 at the user input " Decline ". -/
theorem c5_decline_witness :
    basic_elicitation_handler Unit " Decline " none =
      .response { action := "decline", data := none }
    ∧ choose_action { action := "decline", data := none } = "Declined!"
    ∧ choose_action_request =
        ("Choose an action", ["accept", "decline", "cancel"]) :=
  c5_decline_yields_declined " Decline " (by decide)

/-- C10: for the closed option set, an input that is neither a decline word
nor a cancel word yields action=accept with no data, and accepting
choose_action through this client therefore renders
"Accepted: no selection provided". -/
theorem c10_accept_attaches_no_data (raw : String)
    (h1 : ["decline", "reject", "no"].contains (pyLower (pyStrip raw)) = false)
    (h2 : ["cancel", "exit"].contains (pyLower (pyStrip raw)) = false) :
    basic_elicitation_handler Unit raw none =
      .response { action := "accept", data := none }
    ∧ choose_action { action := "accept", data := none } =
        "Accepted: no selection provided" := by
  refine ⟨?_, by decide⟩
  unfold basic_elicitation_handler
  dsimp only
  rw [if_neg (by rw [h1]; exact Bool.false_ne_true),
      if_neg (by rw [h2]; exact Bool.false_ne_true)]

/-- Witness for C10 at the user input "hello". -/
theorem c10_accept_witness :
    basic_elicitation_handler Unit "hello" none =
      .response { action := "accept", data := none }
    ∧ choose_action { action := "accept", data := none } =
        "Accepted: no selection provided" :=
  c10_accept_attaches_no_data "hello" (by decide) (by decide)

/-- C4: submitting slow_task(duration=3) as a task yields a handle with
returnedImmediately=false (required mode, modelled from the spec), the
handler performs exactly three increments, the last progress snapshot has
completed=3 with total=3, the task ends completed, and the stored result
text contains "3-second task". -/
theorem c4_slow_task_duration3_scenario :
    (∀ run serverImmediate,
      dispatch run serverImmediate "slow_task" true = .handle false)
    ∧ (slow_task_ops 3).count .increment = 3
    ∧ (progressTrace (slow_task_ops 3)).getLast? =
        some { total := some 3, completed := 3,
               message := some "Working... step 3/3" }
    ∧ finalTaskState (slow_task_outcome 3) = .completed
    ∧ "3-second task".data <:+: (slow_task_result 3).data := by
  refine ⟨fun run serverImmediate => rfl, by decide, by decide, rfl, ?_⟩
  exact ⟨"Finished a ".data, " over HTTP".data, by decide⟩

/-- One progress operation never decreases the completed counter. -/
theorem applyProgress_completed_le (st : ProgressState) (op : ProgressOp) :
    st.completed ≤ (applyProgress st op).completed := by
  cases op <;> simp [applyProgress]

/-- A scanl of progress operations always starts at its initial state. -/
theorem scanl_applyProgress_head (b : ProgressState) (l : List ProgressOp) :
    (List.scanl applyProgress b l).head? = some b := by
  cases l <;> simp [List.scanl_nil, List.scanl_cons]

/-- Along any run of progress operations, consecutive snapshots have
non-decreasing completed counters. -/
theorem chain_completed_scanl (ops : List ProgressOp) :
    ∀ init : ProgressState,
      List.Chain' (fun a b => a.completed ≤ b.completed)
        (List.scanl applyProgress init ops) := by
  induction ops with
  | nil =>
      intro init
      simp [List.scanl_nil]
  | cons op rest ih =>
      intro init
      rw [List.scanl_cons, List.singleton_append, List.chain'_cons']
      refine ⟨?_, ih _⟩
      intro y hy
      rw [scanl_applyProgress_head, Option.mem_def, Option.some.injEq] at hy
      rw [← hy]
      exact applyProgress_completed_le init op

/-- C7: the completed counters along the full progress trace of slow_task
are pairwise non-decreasing, so any poller — which observes a subsequence
of these snapshots — never sees the counter go backwards. -/
theorem c7_progress_completed_monotone (duration : Nat) :
    ((progressTrace (slow_task_ops duration)).map
      ProgressState.completed).Pairwise (· ≤ ·) := by
  have h := chain_completed_scanl (slow_task_ops duration) {}
  have h2 : List.Chain' (· ≤ ·)
      ((progressTrace (slow_task_ops duration)).map ProgressState.completed) := by
    unfold progressTrace
    exact List.chain'_map_of_chain' ProgressState.completed (fun a b hab => hab) h
  exact List.chain'_iff_pairwise.mp h2

/-- splitSlash always produces at least one component. -/
theorem splitSlash_ne_nil (cs : List Char) : splitSlash cs ≠ [] := by
  cases cs with
  | nil => simp [splitSlash]
  | cons c cs =>
      unfold splitSlash
      split
      · simp
      · split <;> simp

/-- No component produced by splitSlash contains the separator. -/
theorem splitSlash_no_slash (cs : List Char) :
    ∀ comp ∈ splitSlash cs, '/' ∉ comp := by
  induction cs with
  | nil =>
      intro comp hc
      simp [splitSlash] at hc
      simp [hc]
  | cons c cs ih =>
      intro comp hc
      unfold splitSlash at hc
      by_cases h : c = '/'
      · rw [if_pos h] at hc
        rcases List.mem_cons.mp hc with rfl | hmem
        · simp
        · exact ih comp hmem
      · rw [if_neg h] at hc
        cases hsp : splitSlash cs with
        | nil => exact absurd hsp (splitSlash_ne_nil cs)
        | cons comp0 comps =>
            rw [hsp] at hc
            rcases List.mem_cons.mp hc with rfl | hmem
            · intro hmm
              rcases List.mem_cons.mp hmm with h1 | h2
              · exact h h1.symm
              · exact ih comp0 (by rw [hsp]; exact List.mem_cons_self _ _) h2
            · exact ih comp (by rw [hsp]; exact List.mem_cons_of_mem _ hmem)

/-- Characters without a separator split into themselves. -/
theorem splitSlash_of_no_slash (cs : List Char) (h : '/' ∉ cs) :
    splitSlash cs = [cs] := by
  induction cs with
  | nil => rfl
  | cons c cs ih =>
      have hc : ¬ c = '/' := by
        intro hc
        exact h (by rw [hc]; exact List.mem_cons_self _ _)
      have hcs : '/' ∉ cs := fun hm => h (List.mem_cons_of_mem c hm)
      unfold splitSlash
      rw [if_neg hc, ih hcs]

/-- Every component of a parsed path is non-empty, is not ".", and contains
no separator. -/
theorem mem_pathlibParts {s comp : String} (h : comp ∈ pathlibParts s) :
    comp ≠ "" ∧ comp ≠ "." ∧ '/' ∉ comp.data := by
  unfold pathlibParts at h
  rcases List.mem_filter.mp h with ⟨hmem, hpred⟩
  rcases List.mem_map.mp hmem with ⟨cs, hcs, hmk⟩
  rw [Bool.and_eq_true] at hpred
  obtain ⟨hp1, hp2⟩ := hpred
  refine ⟨bne_iff_ne.mp hp1, bne_iff_ne.mp hp2, ?_⟩
  rw [← hmk]
  exact splitSlash_no_slash s.data cs hcs

/-- A non-empty pathlib name is a clean single component. -/
theorem pathlibName_spec (s : String) (h : pathlibName s ≠ "") :
    pathlibName s ≠ "." ∧ '/' ∉ (pathlibName s).data := by
  cases hl : (pathlibParts s).getLast? with
  | none =>
      exfalso
      apply h
      unfold pathlibName
      rw [hl]
      rfl
  | some x =>
      have hx : x ∈ pathlibParts s := by
        rcases List.mem_getLast?_eq_getLast (Option.mem_def.mpr hl) with
          ⟨hne, hget⟩
        rw [hget]
        exact List.getLast_mem hne
      have hname : pathlibName s = x := by
        unfold pathlibName
        rw [hl]
        rfl
      rw [hname]
      rcases mem_pathlibParts hx with ⟨-, h2, h3⟩
      exact ⟨h2, h3⟩

/-- The name hint of receive_file is never empty, never ".", and never
contains a separator. -/
theorem name_hint_spec (uriPath : String) :
    name_hint uriPath ≠ "" ∧ name_hint uriPath ≠ "." ∧
      '/' ∉ (name_hint uriPath).data := by
  unfold name_hint
  by_cases h : pathlibName uriPath = ""
  · rw [if_pos h]
    refine ⟨by decide, by decide, by decide⟩
  · rw [if_neg h]
    rcases pathlibName_spec uriPath h with ⟨h1, h2⟩
    exact ⟨h, h1, h2⟩

/-- A clean single component parses to itself. -/
theorem pathlibParts_single (w : String) (h1 : w ≠ "") (h2 : w ≠ ".")
    (h3 : '/' ∉ w.data) : pathlibParts w = [w] := by
  unfold pathlibParts
  rw [splitSlash_of_no_slash w.data h3]
  have hpred : ((String.mk w.data != "") && (String.mk w.data != ".")) = true := by
    rw [Bool.and_eq_true]
    exact ⟨bne_iff_ne.mpr h1, bne_iff_ne.mpr h2⟩
  simp only [List.map_cons, List.map_nil, List.filter_cons, List.filter_nil]
  rw [if_pos hpred]

/-- Resolving the upload directory joined with any single component other
than ".." lands directly inside the upload directory. -/
theorem normalize_upload_child (n : String) (hne : n ≠ "..") :
    normalizeParts (pathlibParts UPLOAD_DIR ++ [n]) =
      pathlibParts UPLOAD_DIR ++ [n] := by
  have hparts : pathlibParts UPLOAD_DIR = ["tmp", "mcp_uploads"] := by decide
  rw [hparts]
  unfold normalizeParts
  simp only [List.cons_append, List.nil_append, List.foldl_cons,
    List.foldl_nil]
  rw [if_neg (by decide : ¬ ("tmp" : String) = ".."),
      if_neg (by decide : ¬ ("mcp_uploads" : String) = ".."),
      if_neg hne]
  rfl

/-- C9 counterexample: the source URI file:///secret/.. has final path
component "..", so name_hint is ".." and the destination
/tmp/mcp_uploads/.. resolves to /tmp — the parent of the upload directory,
not a path directly inside it: the resolved destination is not
UPLOAD_DIR joined with any single component. -/
theorem c9_dotdot_escapes_counterexample :
    urlparsePath "file:///secret/.." = "/secret/.."
    ∧ name_hint (urlparsePath "file:///secret/..") = ".."
    ∧ normalizeParts (destinationParts (urlparsePath "file:///secret/..")) =
        ["tmp"]
    ∧ (∀ c : String,
        normalizeParts (destinationParts (urlparsePath "file:///secret/..")) ≠
          pathlibParts UPLOAD_DIR ++ [c]) := by
  refine ⟨by decide, by decide, by decide, ?_⟩
  intro c h
  have hlen := congrArg List.length h
  simp [destinationParts] at hlen
  rw [show normalizeParts (pathlibParts UPLOAD_DIR ++
        pathlibParts (name_hint (urlparsePath "file:///secret/.."))) = ["tmp"]
      from by decide] at hlen
  simp [show pathlibParts UPLOAD_DIR = ["tmp", "mcp_uploads"] from by decide]
    at hlen

/-- C9 amended: the name hint is always a single non-empty component
without separators and never "."; whenever it is not "..", the destination
resolves to the upload directory joined with exactly that component, i.e.
directly inside UPLOAD_DIR.  The one exception the counterexample forces is
a URI whose final path component is "..". -/
theorem c9_single_component_inside (uriPath : String)
    (hdd : name_hint uriPath ≠ "..") :
    name_hint uriPath ≠ ""
    ∧ name_hint uriPath ≠ "."
    ∧ '/' ∉ (name_hint uriPath).data
    ∧ normalizeParts (destinationParts uriPath) =
        pathlibParts UPLOAD_DIR ++ [name_hint uriPath] := by
  obtain ⟨h1, h2, h3⟩ := name_hint_spec uriPath
  refine ⟨h1, h2, h3, ?_⟩
  unfold destinationParts
  rw [pathlibParts_single _ h1 h2 h3]
  exact normalize_upload_child _ hdd

/-- Witness for the amended C9 at the URI path "/a/b.txt". -/
theorem c9_single_component_inside_witness :
    name_hint "/a/b.txt" ≠ ""
    ∧ name_hint "/a/b.txt" ≠ "."
    ∧ '/' ∉ (name_hint "/a/b.txt").data
    ∧ normalizeParts (destinationParts "/a/b.txt") =
        pathlibParts UPLOAD_DIR ++ [name_hint "/a/b.txt"] :=
  c9_single_component_inside "/a/b.txt" (by decide)
